import Mathlib

/-!
Verification development for the `ab_glyph` font-handle layer
(`src/glyph/src/font_arc.rs`): the type-erased, reference-counted
`FontArc` wrapper around any backend implementing the `Font` contract.

Font design-unit values (`f32` in the source) carry no arithmetic at this
layer — every method of `FontArc` passes its backend's value through
unchanged — so they are embedded as `Rat`, an exact carrier on which the
golden value `-201.0` is representable.
-/

namespace AbGlyph

/-- Modelled from the spec: `GlyphId`, an opaque backend-assigned integer
identifier for one glyph within a font (the `GlyphId` type is declared
outside the provided source file). -/
structure GlyphId where
  id : Nat
deriving DecidableEq

/-- Modelled from the spec: a point in font design units (coordinates of
the contour curves of an outline). -/
structure Point where
  x : Rat
  y : Rat
deriving DecidableEq

/-- Modelled from the spec: one curve segment of a glyph contour
(lines/curves in font design units). -/
inductive OutlineCurve where
  | line (p0 p1 : Point)
  | quad (p0 c p1 : Point)
  | cubic (p0 c0 c1 p1 : Point)
deriving DecidableEq

/-- Modelled from the spec: `Outline`, the set of closed contours
describing a glyph's shape in font design units (declared outside the
provided source file). -/
structure Outline where
  curves : List OutlineCurve
deriving DecidableEq

/-- Modelled from the spec: the single error kind `InvalidFont`, raised
only at construction time (declared outside the provided source file; a
unit-like error value). -/
structure InvalidFont where
deriving DecidableEq

/-- Modelled from the spec: the `Font` capability contract (§4.1) as the
record of query behaviours a backend exposes. A value of this type plays
the role of a `dyn Font` trait object: the backend instance together with
its method dictionary. The trait itself is declared outside the provided
source file. -/
structure Font where
  ascent : Rat
  descent : Rat
  line_gap : Rat
  glyph_id : Char → GlyphId
  h_advance : GlyphId → Rat
  h_side_bearing : GlyphId → Rat
  kern : GlyphId → GlyphId → Rat
  outline : GlyphId → Option Outline
  glyph_count : Nat

/-- Modelled from the spec: the table-parser collaborator, a black box
that, given raw font bytes, yields the query behaviours of the font, or
fails when it cannot locate or parse a mandatory table. -/
def TableParser : Type := List Nat → Option Font

/-- Modelled from the spec: the owned backend `FontVec` (declared outside
the provided source file): owns its byte buffer and holds the parsed
query behaviours produced by the table-parser collaborator. -/
structure FontVec where
  data : List Nat
  parsed : Font

/-- Modelled from the spec: `FontVec::try_from_vec` — construction from an
owned byte buffer validates the bytes via the table-parser collaborator
and fails with `InvalidFont` when a mandatory table cannot be located or
parsed. -/
def FontVec.try_from_vec (parse : TableParser) (data : List Nat) :
    Except InvalidFont FontVec :=
  match parse data with
  | some q => .ok ⟨data, q⟩
  | none => .error ⟨⟩

/-- Modelled from the spec: the `Font` impl of the owned backend — every
query delegates to the parsed index built at construction. Packaged as
the backend's `dyn Font` dictionary. -/
def FontVec.asDyn (f : FontVec) : Font :=
  ⟨f.parsed.ascent, f.parsed.descent, f.parsed.line_gap, f.parsed.glyph_id,
   f.parsed.h_advance, f.parsed.h_side_bearing, f.parsed.kern,
   f.parsed.outline, f.parsed.glyph_count⟩

/-- Modelled from the spec: the borrowed backend `FontRef` (declared
outside the provided source file): zero-copy over an external byte slice,
holding the parsed query behaviours. -/
structure FontRef where
  data : List Nat
  parsed : Font

/-- Modelled from the spec: `FontRef::try_from_slice` — same validation
and failure behaviour as the owned backend's constructor. -/
def FontRef.try_from_slice (parse : TableParser) (data : List Nat) :
    Except InvalidFont FontRef :=
  match parse data with
  | some q => .ok ⟨data, q⟩
  | none => .error ⟨⟩

/-- Modelled from the spec: the `Font` impl of the borrowed backend as its
`dyn Font` dictionary. -/
def FontRef.asDyn (f : FontRef) : Font :=
  ⟨f.parsed.ascent, f.parsed.descent, f.parsed.line_gap, f.parsed.glyph_id,
   f.parsed.h_advance, f.parsed.h_side_bearing, f.parsed.kern,
   f.parsed.outline, f.parsed.glyph_count⟩

/-- `pub struct FontArc(Arc<dyn Font>);` — behavioural level: the handle
is observed through the backend instance its `Arc` dereferences to. -/
structure FontArc where
  arcDeref : Font

/-- `FontArc::new`: `Self(Arc::new(font))` — places the backend behind the
reference-counted allocation. -/
def FontArc.new (font : Font) : FontArc :=
  ⟨font⟩

/-- `impl Font for FontArc`: `fn ascent(&self) -> f32 { self.0.ascent() }` -/
def FontArc.ascent (self : FontArc) : Rat :=
  self.arcDeref.ascent

/-- `fn descent(&self) -> f32 { self.0.descent() }` -/
def FontArc.descent (self : FontArc) : Rat :=
  self.arcDeref.descent

/-- `fn line_gap(&self) -> f32 { self.0.line_gap() }` -/
def FontArc.line_gap (self : FontArc) : Rat :=
  self.arcDeref.line_gap

/-- `fn glyph_id(&self, c: char) -> GlyphId { self.0.glyph_id(c) }` -/
def FontArc.glyph_id (self : FontArc) (c : Char) : GlyphId :=
  self.arcDeref.glyph_id c

/-- `fn h_advance(&self, id: GlyphId) -> f32 { self.0.h_advance(id) }` -/
def FontArc.h_advance (self : FontArc) (id : GlyphId) : Rat :=
  self.arcDeref.h_advance id

/-- `fn h_side_bearing(&self, id: GlyphId) -> f32 { self.0.h_side_bearing(id) }` -/
def FontArc.h_side_bearing (self : FontArc) (id : GlyphId) : Rat :=
  self.arcDeref.h_side_bearing id

/-- `fn kern(&self, first: GlyphId, second: GlyphId) -> f32 { self.0.kern(first, second) }` -/
def FontArc.kern (self : FontArc) (first second : GlyphId) : Rat :=
  self.arcDeref.kern first second

/-- `fn outline(&self, glyph: GlyphId) -> Option<Outline> { self.0.outline(glyph) }` -/
def FontArc.outline (self : FontArc) (glyph : GlyphId) : Option Outline :=
  self.arcDeref.outline glyph

/-- `fn glyph_count(&self) -> usize { self.0.glyph_count() }` -/
def FontArc.glyph_count (self : FontArc) : Nat :=
  self.arcDeref.glyph_count

/-- The `impl Font for FontArc` gathered as the handle's own `dyn Font`
dictionary (the trait-object view a further `FontArc::new` would wrap). -/
def FontArc.asDyn (self : FontArc) : Font :=
  ⟨self.ascent, self.descent, self.line_gap, self.glyph_id,
   self.h_advance, self.h_side_bearing, self.kern,
   self.outline, self.glyph_count⟩

/-- `impl From<FontVec> for FontArc`: `Self::new(font)`. -/
def FontArc.fromFontVec (font : FontVec) : FontArc :=
  FontArc.new font.asDyn

/-- `impl From<FontRef<'static>> for FontArc`: `Self::new(font)`. -/
def FontArc.fromFontRef (font : FontRef) : FontArc :=
  FontArc.new font.asDyn

/-- `impl From<Arc<dyn Font>> for FontArc`: `Self(font)` — adopts the
already-reference-counted pointer directly. -/
def FontArc.fromArcDyn (font : Font) : FontArc :=
  ⟨font⟩

/-- `FontArc::try_from_vec`: `Ok(FontVec::try_from_vec(data)?.into())`. -/
def FontArc.try_from_vec (parse : TableParser) (data : List Nat) :
    Except InvalidFont FontArc :=
  match FontVec.try_from_vec parse data with
  | .ok v => .ok (FontArc.fromFontVec v)
  | .error e => .error e

/-- `FontArc::try_from_slice`: `Ok(FontRef::try_from_slice(data)?.into())`. -/
def FontArc.try_from_slice (parse : TableParser) (data : List Nat) :
    Except InvalidFont FontArc :=
  match FontRef.try_from_slice parse data with
  | .ok r => .ok (FontArc.fromFontRef r)
  | .error e => .error e

/-- `impl fmt::Debug for FontArc`: `write!(f, "FontArc")` — the formatted
output is the fixed string. -/
def FontArc.fmtDebug (_self : FontArc) : String :=
  "FontArc"

/-- Modelled from the spec: the reference-counted allocation behind the
shared handle (§4.4, §5). A store of slots, one per allocation; a slot
holds the strong reference count and the wrapped backend instance, and is
destroyed (removed) when the last handle referencing it is dropped. -/
structure ArcStore where
  next : Nat
  slots : Nat → Option (Nat × Font)

/-- A shared handle at allocation level: the address of its slot (the
`Arc<dyn Font>` pointer identity). -/
structure ArcHandle where
  addr : Nat
deriving DecidableEq

/-- Modelled from the spec: placing an instance behind a fresh
reference-counted allocation (`Arc::new`): a new slot with count 1 holding
the moved instance; the instance is stored as-is, nothing is re-parsed. -/
def ArcStore.alloc (s : ArcStore) (v : Font) : ArcStore × ArcHandle :=
  (⟨s.next + 1,
    fun a => if a = s.next then some (1, v) else s.slots a⟩,
   ⟨s.next⟩)

/-- Modelled from the spec: `Clone` on the shared handle — reference count
increment only on the same slot; no new allocation, no copy of the
wrapped instance. -/
def ArcStore.clone (s : ArcStore) (h : ArcHandle) : ArcStore × ArcHandle :=
  (⟨s.next,
    fun a => if a = h.addr then (s.slots a).map (fun cv => (cv.1 + 1, cv.2))
             else s.slots a⟩,
   ⟨h.addr⟩)

/-- Modelled from the spec: dropping a shared handle — reference count
decrement; the backend instance is destroyed only when the last handle
referencing it is dropped. -/
def ArcStore.drop (s : ArcStore) (h : ArcHandle) : ArcStore :=
  ⟨s.next,
   fun a => if a = h.addr then
              match s.slots a with
              | some (c, v) => if c ≤ 1 then none else some (c - 1, v)
              | none => none
            else s.slots a⟩

/-- Dereferencing a handle: the wrapped backend instance, when its slot is
still live. -/
def ArcStore.getFont (s : ArcStore) (h : ArcHandle) : Option Font :=
  (s.slots h.addr).map (·.2)

/-- The strong reference count of a handle's slot. -/
def ArcStore.count (s : ArcStore) (h : ArcHandle) : Option Nat :=
  (s.slots h.addr).map (·.1)

/-- Store-level `FontArc::new` / `From<FontVec>` / `From<FontRef>`:
`Self::new(font)` places the backend's trait-object dictionary behind a
fresh allocation. -/
def FontArc.newS (s : ArcStore) (font : Font) : ArcStore × ArcHandle :=
  s.alloc font

/-- Store-level `impl From<FontVec> for FontArc`: `Self::new(font)`. -/
def FontArc.fromFontVecS (s : ArcStore) (font : FontVec) : ArcStore × ArcHandle :=
  FontArc.newS s font.asDyn

/-- Store-level `impl From<FontRef<'static>> for FontArc`: `Self::new(font)`. -/
def FontArc.fromFontRefS (s : ArcStore) (font : FontRef) : ArcStore × ArcHandle :=
  FontArc.newS s font.asDyn

/-- Store-level `impl From<Arc<dyn Font>> for FontArc`: `Self(font)` — the
existing reference-counted pointer is adopted directly; the store is
untouched (no second wrapping allocation). -/
def FontArc.fromArcDynS (s : ArcStore) (h : ArcHandle) : ArcStore × ArcHandle :=
  (s, h)

/-- Store-level query: `self.0.ascent()` through the handle's slot. -/
def FontArc.ascentS (s : ArcStore) (h : ArcHandle) : Option Rat :=
  (s.getFont h).map Font.ascent

/-- Store-level query: `self.0.descent()`. -/
def FontArc.descentS (s : ArcStore) (h : ArcHandle) : Option Rat :=
  (s.getFont h).map Font.descent

/-- Store-level query: `self.0.line_gap()`. -/
def FontArc.line_gapS (s : ArcStore) (h : ArcHandle) : Option Rat :=
  (s.getFont h).map Font.line_gap

/-- Store-level query: `self.0.glyph_id(c)`. -/
def FontArc.glyph_idS (s : ArcStore) (h : ArcHandle) (c : Char) : Option GlyphId :=
  (s.getFont h).map (fun f => f.glyph_id c)

/-- Store-level query: `self.0.h_advance(id)`. -/
def FontArc.h_advanceS (s : ArcStore) (h : ArcHandle) (id : GlyphId) : Option Rat :=
  (s.getFont h).map (fun f => f.h_advance id)

/-- Store-level query: `self.0.h_side_bearing(id)`. -/
def FontArc.h_side_bearingS (s : ArcStore) (h : ArcHandle) (id : GlyphId) : Option Rat :=
  (s.getFont h).map (fun f => f.h_side_bearing id)

/-- Store-level query: `self.0.kern(first, second)`. -/
def FontArc.kernS (s : ArcStore) (h : ArcHandle) (first second : GlyphId) : Option Rat :=
  (s.getFont h).map (fun f => f.kern first second)

/-- Store-level query: `self.0.outline(glyph)`. -/
def FontArc.outlineS (s : ArcStore) (h : ArcHandle) (glyph : GlyphId) :
    Option (Option Outline) :=
  (s.getFont h).map (fun f => f.outline glyph)

/-- Store-level query: `self.0.glyph_count()`. -/
def FontArc.glyph_countS (s : ArcStore) (h : ArcHandle) : Option Nat :=
  (s.getFont h).map Font.glyph_count

/-- Spec-side behaviour of the shared handle, following the spec's words:
each capability-contract method returns exactly the value the wrapped
backend's corresponding method returns on the same input, with no
reinterpretation at this layer. -/
def specSharedHandleBehaviour (backend : Font) : Font :=
  backend

/-- A concrete backend used to instantiate witnesses. -/
def unitFont : Font :=
  ⟨0, 0, 0, fun _ => ⟨0⟩, fun _ => 0, fun _ => 0, fun _ _ => 0,
   fun _ => none, 1⟩

/-- A table parser that accepts every byte sequence, for witnesses. -/
def okParse : TableParser :=
  fun _ => some unitFont

/-- A table parser that rejects every byte sequence, for witnesses. -/
def rejectParse : TableParser :=
  fun _ => none

/-- C1: every capability-contract method of `FontArc` returns exactly the
value the wrapped backend's corresponding method returns on the same
input (the handle's whole method dictionary coincides with the spec-side
pass-through behaviour), and `outline` returns `none` exactly when the
wrapped backend's `outline` returns `none`. -/
theorem fontArc_forwards_to_backend (f : Font) (g : GlyphId) :
    (FontArc.new f).asDyn = specSharedHandleBehaviour f ∧
    ((FontArc.new f).outline g = none ↔ f.outline g = none) :=
  ⟨rfl, Iff.rfl⟩

/-- C2: cloning a shared handle shares the same underlying backend slot
(same address, no new allocation, reference count becomes 2), every query
on the clone equals the same query on the original, and dropping the
original still leaves the clone dereferencing the wrapped backend. -/
theorem fontArc_clone_shares_backend (s : ArcStore) (f : Font)
    (c : Char) (g g₂ : GlyphId) :
    (ArcStore.clone (FontArc.newS s f).1 (FontArc.newS s f).2).2.addr
        = (FontArc.newS s f).2.addr ∧
    (ArcStore.clone (FontArc.newS s f).1 (FontArc.newS s f).2).1.next
        = (FontArc.newS s f).1.next ∧
    ArcStore.count (ArcStore.clone (FontArc.newS s f).1 (FontArc.newS s f).2).1
        (ArcStore.clone (FontArc.newS s f).1 (FontArc.newS s f).2).2 = some 2 ∧
    (let s₂ := (ArcStore.clone (FontArc.newS s f).1 (FontArc.newS s f).2).1
     let orig := (FontArc.newS s f).2
     let dup := (ArcStore.clone (FontArc.newS s f).1 (FontArc.newS s f).2).2
     FontArc.ascentS s₂ dup = FontArc.ascentS s₂ orig ∧
     FontArc.descentS s₂ dup = FontArc.descentS s₂ orig ∧
     FontArc.line_gapS s₂ dup = FontArc.line_gapS s₂ orig ∧
     FontArc.glyph_idS s₂ dup c = FontArc.glyph_idS s₂ orig c ∧
     FontArc.h_advanceS s₂ dup g = FontArc.h_advanceS s₂ orig g ∧
     FontArc.h_side_bearingS s₂ dup g = FontArc.h_side_bearingS s₂ orig g ∧
     FontArc.kernS s₂ dup g g₂ = FontArc.kernS s₂ orig g g₂ ∧
     FontArc.outlineS s₂ dup g = FontArc.outlineS s₂ orig g ∧
     FontArc.glyph_countS s₂ dup = FontArc.glyph_countS s₂ orig ∧
     ArcStore.getFont (ArcStore.drop s₂ orig) dup = some f) := by
  refine ⟨rfl, rfl, ?_, rfl, rfl, rfl, rfl, rfl, rfl, rfl, rfl, rfl, ?_⟩
  · simp [FontArc.newS, ArcStore.alloc, ArcStore.clone, ArcStore.count]
  · simp [FontArc.newS, ArcStore.alloc, ArcStore.clone, ArcStore.drop,
      ArcStore.getFont]

/-- C3: `FontArc::try_from_vec` succeeds exactly when
`FontVec::try_from_vec` succeeds and wraps the owned backend on success;
`FontArc::try_from_slice` succeeds exactly when `FontRef::try_from_slice`
succeeds and wraps the borrowed backend; either failure propagates the
`InvalidFont` error unchanged. -/
theorem fontArc_try_from_propagates (parse : TableParser) (data : List Nat) :
    ((FontArc.try_from_vec parse data).isOk
        ↔ (FontVec.try_from_vec parse data).isOk) ∧
    (∀ v, FontVec.try_from_vec parse data = .ok v →
      FontArc.try_from_vec parse data = .ok (FontArc.fromFontVec v)) ∧
    (∀ e, FontVec.try_from_vec parse data = .error e →
      FontArc.try_from_vec parse data = .error e) ∧
    ((FontArc.try_from_slice parse data).isOk
        ↔ (FontRef.try_from_slice parse data).isOk) ∧
    (∀ r, FontRef.try_from_slice parse data = .ok r →
      FontArc.try_from_slice parse data = .ok (FontArc.fromFontRef r)) ∧
    (∀ e, FontRef.try_from_slice parse data = .error e →
      FontArc.try_from_slice parse data = .error e) := by
  refine ⟨?_, ?_, ?_, ?_, ?_, ?_⟩
  · cases hv : FontVec.try_from_vec parse data <;>
      simp [FontArc.try_from_vec, hv, Except.isOk, Except.toBool]
  · intro v hv; simp [FontArc.try_from_vec, hv]
  · intro e hv; simp [FontArc.try_from_vec, hv]
  · cases hr : FontRef.try_from_slice parse data <;>
      simp [FontArc.try_from_slice, hr, Except.isOk, Except.toBool]
  · intro r hr; simp [FontArc.try_from_slice, hr]
  · intro e hr; simp [FontArc.try_from_slice, hr]

/-- Witness for C3 at a concrete parser and input, exercising both the
success pass-through and the error pass-through. -/
theorem fontArc_try_from_propagates_witness :
    FontArc.try_from_vec okParse [] = .ok (FontArc.fromFontVec ⟨[], unitFont⟩) ∧
    FontArc.try_from_vec rejectParse [] = .error ⟨⟩ :=
  ⟨(fontArc_try_from_propagates okParse []).2.1 ⟨[], unitFont⟩ rfl,
   (fontArc_try_from_propagates rejectParse []).2.2.1 ⟨⟩ rfl⟩

/-- C4: every query method of a `FontArc` returns a plain value (total,
never an `InvalidFont`); `outline`'s `none` is the wrapped backend's
empty-result marker passed through, not an error; and `InvalidFont`
arises exactly when the table parser rejects the bytes during
construction — the only failing operations. -/
theorem fontArc_queries_total (h : FontArc) (c : Char) (g g₂ : GlyphId)
    (parse : TableParser) (data : List Nat) :
    (∃ v : Rat, h.ascent = v) ∧ (∃ v : Rat, h.descent = v) ∧
    (∃ v : Rat, h.line_gap = v) ∧ (∃ v : GlyphId, h.glyph_id c = v) ∧
    (∃ v : Rat, h.h_advance g = v) ∧ (∃ v : Rat, h.h_side_bearing g = v) ∧
    (∃ v : Rat, h.kern g g₂ = v) ∧ (∃ v : Nat, h.glyph_count = v) ∧
    (h.outline g = none ↔ h.arcDeref.outline g = none) ∧
    (FontArc.try_from_vec parse data = .error ⟨⟩ ↔ parse data = none) ∧
    (FontArc.try_from_slice parse data = .error ⟨⟩ ↔ parse data = none) := by
  refine ⟨⟨_, rfl⟩, ⟨_, rfl⟩, ⟨_, rfl⟩, ⟨_, rfl⟩, ⟨_, rfl⟩, ⟨_, rfl⟩,
    ⟨_, rfl⟩, ⟨_, rfl⟩, Iff.rfl, ?_, ?_⟩
  · cases hp : parse data <;>
      simp [FontArc.try_from_vec, FontVec.try_from_vec, hp]
  · cases hp : parse data <;>
      simp [FontArc.try_from_slice, FontRef.try_from_slice, hp]

/-- C5: converting an owned backend, a borrowed backend, or an existing
reference-counted pointer into a shared handle stores the instance's
already-parsed dictionary as-is (no re-parsing: the slot holds exactly the
backend's dictionary), every query on the converted handle returns the
backend's value — in particular `glyph_count` equals the owned backend's
`glyph_count` — and adopting an existing pointer leaves the store
untouched. -/
theorem fontArc_conversion_preserves_queries (s : ArcStore)
    (fv : FontVec) (fr : FontRef) (a : ArcHandle)
    (c : Char) (g g₂ : GlyphId) :
    (let p := FontArc.fromFontVecS s fv
     ArcStore.getFont p.1 p.2 = some fv.asDyn ∧
     FontArc.ascentS p.1 p.2 = some fv.parsed.ascent ∧
     FontArc.descentS p.1 p.2 = some fv.parsed.descent ∧
     FontArc.line_gapS p.1 p.2 = some fv.parsed.line_gap ∧
     FontArc.glyph_idS p.1 p.2 c = some (fv.parsed.glyph_id c) ∧
     FontArc.h_advanceS p.1 p.2 g = some (fv.parsed.h_advance g) ∧
     FontArc.h_side_bearingS p.1 p.2 g = some (fv.parsed.h_side_bearing g) ∧
     FontArc.kernS p.1 p.2 g g₂ = some (fv.parsed.kern g g₂) ∧
     FontArc.outlineS p.1 p.2 g = some (fv.parsed.outline g) ∧
     FontArc.glyph_countS p.1 p.2 = some fv.parsed.glyph_count) ∧
    (let q := FontArc.fromFontRefS s fr
     ArcStore.getFont q.1 q.2 = some fr.asDyn ∧
     FontArc.glyph_countS q.1 q.2 = some fr.parsed.glyph_count) ∧
    FontArc.fromArcDynS s a = (s, a) := by
  refine ⟨⟨?_, ?_, ?_, ?_, ?_, ?_, ?_, ?_, ?_, ?_⟩, ⟨?_, ?_⟩, rfl⟩ <;>
    simp [FontArc.fromFontVecS, FontArc.fromFontRefS, FontArc.newS,
      ArcStore.alloc, ArcStore.getFont, FontArc.ascentS, FontArc.descentS,
      FontArc.line_gapS, FontArc.glyph_idS, FontArc.h_advanceS,
      FontArc.h_side_bearingS, FontArc.kernS, FontArc.outlineS,
      FontArc.glyph_countS, FontVec.asDyn, FontRef.asDyn]

/-- C6: every query method of `FontArc` is deterministic and
side-effect-free — its result is a function of the wrapped backend
instance and the arguments alone, so repeated calls on the same instance,
or calls on any handle dereferencing to an equal instance, return
identical results. -/
theorem fontArc_queries_deterministic (h h₂ : FontArc)
    (hf : h.arcDeref = h₂.arcDeref) (c : Char) (g g₂ : GlyphId) :
    h.ascent = h₂.ascent ∧ h.descent = h₂.descent ∧
    h.line_gap = h₂.line_gap ∧ h.glyph_id c = h₂.glyph_id c ∧
    h.h_advance g = h₂.h_advance g ∧
    h.h_side_bearing g = h₂.h_side_bearing g ∧
    h.kern g g₂ = h₂.kern g g₂ ∧ h.outline g = h₂.outline g ∧
    h.glyph_count = h₂.glyph_count := by
  simp [FontArc.ascent, FontArc.descent, FontArc.line_gap, FontArc.glyph_id,
    FontArc.h_advance, FontArc.h_side_bearing, FontArc.kern,
    FontArc.outline, FontArc.glyph_count, hf]

/-- Witness for C6: two syntactic calls on the same concrete instance
return the same `glyph_count`. -/
theorem fontArc_queries_deterministic_witness :
    (FontArc.new unitFont).glyph_count = (FontArc.new unitFont).glyph_count :=
  (fontArc_queries_deterministic (FontArc.new unitFont) (FontArc.new unitFont)
    rfl 'a' ⟨0⟩ ⟨0⟩).2.2.2.2.2.2.2.2

/-- C7: the Debug representation of every `FontArc` is exactly the fixed
string `"FontArc"`, hence identical for any two handles and independent
of the wrapped backend's state. -/
theorem fontArc_fmtDebug_constant (h h₂ : FontArc) :
    FontArc.fmtDebug h = "FontArc" ∧
    FontArc.fmtDebug h = FontArc.fmtDebug h₂ :=
  ⟨rfl, rfl⟩

/-- Modelled from the spec: the known sample font Exo2-Light.otf. The
spec fixes only its `descent` (the golden reference value -201.0); the
remaining query behaviours are concrete placeholders unconstrained by the
golden-value check. -/
def exo2Light : Font :=
  ⟨0, -201, 0, fun _ => ⟨0⟩, fun _ => 0, fun _ => 0, fun _ _ => 0,
   fun _ => none, 0⟩

/-- Modelled from the spec: the sample font's raw bytes, opaque at this
layer; a concrete stand-in token for the file content. -/
def exo2LightBytes : List Nat :=
  [79, 84, 84, 79]

/-- Modelled from the spec: the table-parser collaborator's behaviour on
the sample font — it parses exactly the sample bytes into the sample
font's query behaviours. -/
def exo2Parse : TableParser :=
  fun data => if data = exo2LightBytes then some exo2Light else none

/-- C8: loading the sample font's bytes through `FontVec::try_from_vec`
succeeds, and `descent()` on the `FontArc` obtained by converting the
owned backend returns exactly -201.0. -/
theorem fontArc_exo2_descent :
    ∃ v : FontVec,
      FontVec.try_from_vec exo2Parse exo2LightBytes = .ok v ∧
      (FontArc.fromFontVec v).descent = -201 := by
  refine ⟨⟨exo2LightBytes, exo2Light⟩, ?_, rfl⟩
  simp [FontVec.try_from_vec, exo2Parse]

/-- C9: `FontArc` itself satisfies the `Font` contract, so wrapping a
handle again with `FontArc::new` is behaviourally idempotent: every query
on the re-wrapped handle returns the same value as on the original. -/
theorem fontArc_rewrap_idempotent (h : FontArc) (c : Char) (g g₂ : GlyphId) :
    (FontArc.new h.asDyn).ascent = h.ascent ∧
    (FontArc.new h.asDyn).descent = h.descent ∧
    (FontArc.new h.asDyn).line_gap = h.line_gap ∧
    (FontArc.new h.asDyn).glyph_id c = h.glyph_id c ∧
    (FontArc.new h.asDyn).h_advance g = h.h_advance g ∧
    (FontArc.new h.asDyn).h_side_bearing g = h.h_side_bearing g ∧
    (FontArc.new h.asDyn).kern g g₂ = h.kern g g₂ ∧
    (FontArc.new h.asDyn).outline g = h.outline g ∧
    (FontArc.new h.asDyn).glyph_count = h.glyph_count :=
  ⟨rfl, rfl, rfl, rfl, rfl, rfl, rfl, rfl, rfl⟩

/-- C10: the `From` conversions coincide with the generic constructor —
`From<FontVec>` and `From<FontRef>` produce exactly `FontArc::new` of the
backend, and `From<Arc<dyn Font>>` adopts the existing pointer directly
(store untouched, same slot) with every query on the adopted handle equal
to a query through the original pointer. -/
theorem fontArc_from_coincides_with_new (fv : FontVec) (fr : FontRef)
    (s : ArcStore) (a : ArcHandle) (c : Char) (g g₂ : GlyphId) :
    FontArc.fromFontVec fv = FontArc.new fv.asDyn ∧
    FontArc.fromFontRef fr = FontArc.new fr.asDyn ∧
    FontArc.fromArcDynS s a = (s, a) ∧
    (let p := FontArc.fromArcDynS s a
     FontArc.ascentS p.1 p.2 = FontArc.ascentS s a ∧
     FontArc.descentS p.1 p.2 = FontArc.descentS s a ∧
     FontArc.line_gapS p.1 p.2 = FontArc.line_gapS s a ∧
     FontArc.glyph_idS p.1 p.2 c = FontArc.glyph_idS s a c ∧
     FontArc.h_advanceS p.1 p.2 g = FontArc.h_advanceS s a g ∧
     FontArc.h_side_bearingS p.1 p.2 g = FontArc.h_side_bearingS s a g ∧
     FontArc.kernS p.1 p.2 g g₂ = FontArc.kernS s a g g₂ ∧
     FontArc.outlineS p.1 p.2 g = FontArc.outlineS s a g ∧
     FontArc.glyph_countS p.1 p.2 = FontArc.glyph_countS s a) :=
  ⟨rfl, rfl, rfl, rfl, rfl, rfl, rfl, rfl, rfl, rfl, rfl, rfl⟩

end AbGlyph
